import Mathlib

/-!
Verification development for the Reflect MCP server (Cloudflare worker).

The repository's `reflect-handler.ts` (OAuth authorize / callback routes) and
`index.ts` (the two MCP tools and `getValidDate`) are embedded shallowly below.
The helper module `workers-oauth-utils` (Cookie Cipher, CSRF Guard,
Approved-Client Ledger, State Store, Session Binder, Callback Validator) is not
part of the available sources; following the specification document those
components are modelled from the spec's component contracts (sections 4.1-4.6),
and each such definition is marked `Modelled from the spec:`.

Bytes are `Nat` values `< 256`; cookie values and state tokens are byte lists;
randomness (fresh tokens) and network effects (the upstream token exchange, the
Reflect API fetches) are passed in as explicit oracle arguments.
-/

/-! ## Cookie Cipher (spec section 4.1) -/

/-- The single error kind of the Cookie Cipher: truncation, signature mismatch
and wrong-key failures are indistinguishable. -/
inductive IntegrityError where
  | integrityError
deriving DecidableEq

/-- Bytewise encryption of one byte under the key. -/
def encByte (key b : Nat) : Nat := (b + key) % 256

/-- Keyed per-byte authentication tag. -/
def tagByte (key b : Nat) : Nat := (b + key + 1) % 256

/-- Bytewise decryption of one byte under the key. -/
def decByte (key b : Nat) : Nat := (b + (256 - key % 256)) % 256

/-- Modelled from the spec: `seal(plaintext, key) → opaque string`
(`workers-oauth-utils` is not among the sources).  The sealed value is the
bytewise-encrypted plaintext followed by a keyed tag over the ciphertext; this
realizes the spec's tamper-evidence contract of section 4.1. -/
def sealCookie (pt : List Nat) (key : Nat) : List Nat :=
  (pt.map (encByte key)) ++ (pt.map (encByte key)).map (tagByte key)

/-- Modelled from the spec: `open(opaque, key) → plaintext | IntegrityError`
(section 4.1).  Truncation (odd length), signature mismatch and wrong-key
failures all collapse to the same `IntegrityError`. -/
def openCookie (s : List Nat) (key : Nat) : Except IntegrityError (List Nat) :=
  if s.length % 2 = 0 then
    if s.drop (s.length / 2) = (s.take (s.length / 2)).map (tagByte key) then
      .ok ((s.take (s.length / 2)).map (decByte key))
    else .error .integrityError
  else .error .integrityError

/-! Auxiliary list lemmas used for the cipher proofs. -/

theorem takeLenAppend (l₁ l₂ : List Nat) : (l₁ ++ l₂).take l₁.length = l₁ := by
  induction l₁ with
  | nil => simp
  | cons x xs ih => simp [ih]

theorem dropLenAppend (l₁ l₂ : List Nat) : (l₁ ++ l₂).drop l₁.length = l₂ := by
  induction l₁ with
  | nil => simp
  | cons x xs ih => simp [ih]

theorem setAppendLt (l₁ l₂ : List Nat) (i a : Nat) (h : i < l₁.length) :
    (l₁ ++ l₂).set i a = l₁.set i a ++ l₂ := by
  induction l₁ generalizing i with
  | nil => simp at h
  | cons x xs ih =>
    cases i with
    | zero => simp
    | succ j =>
      simp only [List.cons_append, List.set_cons_succ]
      rw [ih]
      simpa using Nat.lt_of_succ_lt_succ h

theorem setAppendGe (l₁ l₂ : List Nat) (i a : Nat) (h : l₁.length ≤ i) :
    (l₁ ++ l₂).set i a = l₁ ++ l₂.set (i - l₁.length) a := by
  induction l₁ generalizing i with
  | nil => simp
  | cons x xs ih =>
    cases i with
    | zero => simp at h
    | succ j =>
      simp only [List.cons_append, List.set_cons_succ, List.length_cons]
      rw [ih]
      · simp
      · exact Nat.le_of_succ_le_succ h

theorem getDAppendLt (l₁ l₂ : List Nat) (i : Nat) (h : i < l₁.length) :
    (l₁ ++ l₂).getD i 0 = l₁.getD i 0 := by
  induction l₁ generalizing i with
  | nil => simp at h
  | cons x xs ih =>
    cases i with
    | zero => simp
    | succ j =>
      simp only [List.cons_append, List.getD_cons_succ]
      exact ih j (Nat.lt_of_succ_lt_succ h)

theorem getDAppendGe (l₁ l₂ : List Nat) (i : Nat) (h : l₁.length ≤ i) :
    (l₁ ++ l₂).getD i 0 = l₂.getD (i - l₁.length) 0 := by
  induction l₁ generalizing i with
  | nil => simp
  | cons x xs ih =>
    cases i with
    | zero => simp at h
    | succ j =>
      simp only [List.cons_append, List.getD_cons_succ, List.length_cons]
      rw [ih j (Nat.le_of_succ_le_succ h)]
      simp [Nat.succ_sub_succ]

theorem decByte_encByte (key b : Nat) (h : b < 256) : decByte key (encByte key b) = b := by
  unfold decByte encByte
  omega

theorem mapDecEnc (key : Nat) (pt : List Nat) (h : ∀ b ∈ pt, b < 256) :
    (pt.map (encByte key)).map (decByte key) = pt := by
  induction pt with
  | nil => simp
  | cons x xs ih =>
    simp only [List.map_cons, List.cons.injEq]
    constructor
    · exact decByte_encByte key x (h x (by simp))
    · exact ih (fun b hb => h b (by simp [hb]))

/-- Round trip: opening a freshly sealed cookie with the same key recovers the
plaintext. -/
theorem openCookie_sealCookie (pt : List Nat) (key : Nat)
    (h : pt.all (fun b => b < 256) = true) :
    openCookie (sealCookie pt key) key = .ok pt := by
  have hmem : ∀ b ∈ pt, b < 256 := by
    intro b hb
    have := List.all_eq_true.mp h b hb
    simpa using this
  unfold openCookie sealCookie
  have hlen : ((pt.map (encByte key)) ++ (pt.map (encByte key)).map (tagByte key)).length
      = 2 * pt.length := by
    simp; omega
  rw [hlen]
  have hhalf : 2 * pt.length / 2 = pt.length := by omega
  have hmod : 2 * pt.length % 2 = 0 := by omega
  rw [if_pos hmod, hhalf]
  have hlenct : (pt.map (encByte key)).length = pt.length := by simp
  rw [← hlenct, takeLenAppend, dropLenAppend, if_pos rfl]
  exact congrArg Except.ok (mapDecEnc key pt hmem)

theorem mapTagSetNe (key : Nat) (ct : List Nat) (i b : Nat)
    (hi : i < ct.length) (hct : ∀ x ∈ ct, x < 256) (hb : b < 256)
    (hne : b ≠ ct.getD i 0) :
    ct.map (tagByte key) ≠ (ct.set i b).map (tagByte key) := by
  induction ct generalizing i with
  | nil => simp at hi
  | cons x xs ih =>
    cases i with
    | zero =>
      intro heq
      simp only [List.set_cons_zero, List.map_cons, List.cons.injEq] at heq
      have hx : x < 256 := hct x (by simp)
      have : tagByte key x = tagByte key b := heq.1
      unfold tagByte at this
      have hbx : b = x := by omega
      exact hne (by simpa using hbx)
    | succ j =>
      intro heq
      simp only [List.set_cons_succ, List.map_cons, List.cons.injEq] at heq
      exact ih j (Nat.lt_of_succ_lt_succ hi)
        (fun y hy => hct y (by simp [hy]))
        (by simpa using hne) heq.2

theorem setNeSelf (l : List Nat) (j b : Nat) (hj : j < l.length)
    (hb : b ≠ l.getD j 0) : l.set j b ≠ l := by
  induction l generalizing j with
  | nil => simp at hj
  | cons x xs ih =>
    cases j with
    | zero =>
      intro heq
      simp only [List.set_cons_zero, List.cons.injEq] at heq
      exact hb (by simpa using heq.1)
    | succ k =>
      intro heq
      simp only [List.set_cons_succ, List.cons.injEq] at heq
      exact ih k (Nat.lt_of_succ_lt_succ hj) (by simpa using hb) heq.2

/-- Flipping any single byte of a sealed cookie makes `openCookie` fail. -/
theorem openCookie_flip (pt : List Nat) (key i b : Nat)
    (hall : pt.all (fun x => x < 256) = true)
    (hi : i < (sealCookie pt key).length)
    (hb : b < 256)
    (hne : b ≠ (sealCookie pt key).getD i 0) :
    openCookie ((sealCookie pt key).set i b) key = .error .integrityError := by
  have hmem : ∀ x ∈ pt, x < 256 := by
    intro x hx
    have := List.all_eq_true.mp hall x hx
    simpa using this
  set ct := pt.map (encByte key) with hct
  set tg := ct.map (tagByte key) with htg
  have hctmem : ∀ x ∈ ct, x < 256 := by
    intro x hx
    rw [hct] at hx
    rcases List.mem_map.mp hx with ⟨y, _, rfl⟩
    exact Nat.mod_lt _ (by omega)
  have hctlen : ct.length = pt.length := by simp [hct]
  have htglen : tg.length = pt.length := by simp [htg, hct]
  have hseal : sealCookie pt key = ct ++ tg := rfl
  rw [hseal] at hi hne ⊢
  have hlen2 : (ct ++ tg).length = 2 * pt.length := by
    simp [hctlen, htglen]; omega
  rcases Nat.lt_or_ge i ct.length with hlt | hge
  · -- flip inside the ciphertext half
    rw [setAppendLt ct tg i b hlt]
    have hsetlen : (ct.set i b).length = ct.length := by simp
    unfold openCookie
    have hL : ((ct.set i b) ++ tg).length = 2 * pt.length := by
      simp [hsetlen, hctlen, htglen]; omega
    rw [hL]
    rw [if_pos (by omega)]
    have hhalf : 2 * pt.length / 2 = pt.length := by omega
    rw [hhalf]
    have htake : ((ct.set i b) ++ tg).take pt.length = ct.set i b := by
      have : pt.length = (ct.set i b).length := by simp [hctlen]
      rw [this, takeLenAppend]
    have hdrop : ((ct.set i b) ++ tg).drop pt.length = tg := by
      have : pt.length = (ct.set i b).length := by simp [hctlen]
      rw [this, dropLenAppend]
    rw [htake, hdrop]
    rw [if_neg]
    have hgd : (ct ++ tg).getD i 0 = ct.getD i 0 := getDAppendLt ct tg i hlt
    rw [hgd] at hne
    exact mapTagSetNe key ct i b hlt hctmem hb hne
  · -- flip inside the tag half
    rw [setAppendGe ct tg i b hge]
    unfold openCookie
    have hL : (ct ++ tg.set (i - ct.length) b).length = 2 * pt.length := by
      simp [hctlen, htglen]; omega
    rw [hL]
    rw [if_pos (by omega)]
    have hhalf : 2 * pt.length / 2 = pt.length := by omega
    rw [hhalf]
    have htake : (ct ++ tg.set (i - ct.length) b).take pt.length = ct := by
      rw [← hctlen, takeLenAppend]
    have hdrop : (ct ++ tg.set (i - ct.length) b).drop pt.length = tg.set (i - ct.length) b := by
      rw [← hctlen, dropLenAppend]
    rw [htake, hdrop]
    rw [if_neg]
    have hjlt : i - ct.length < tg.length := by
      simp only [List.length_append] at hi
      omega
    have hgd : (ct ++ tg).getD i 0 = tg.getD (i - ct.length) 0 := getDAppendGe ct tg i hge
    rw [hgd] at hne
    exact setNeSelf tg (i - ct.length) b hjlt hne

/-! ## Error taxonomy (spec section 7) -/

/-- Typed error kinds wrapped in the uniform `OAuthError` (spec section 7). -/
inductive OAuthErrorKind where
  | invalidSessionBinding
  | unknownOrExpiredState
  | csrfMismatch
deriving DecidableEq

/-! ## State Store (spec section 4.4) -/

/-- A state token: a random byte string, the State Store key. -/
abbrev StateToken := List Nat

/-- The upstream client's original authorization parameters
(`AuthRequest` in `reflect-handler.ts`; spec section 3 `PendingAuthRequest`). -/
structure PendingAuthRequest where
  clientId : String
  redirectUri : String
  scope : String
  extra : String
deriving DecidableEq

/-- The durable key-value store mapping state tokens to pending requests. -/
abbrev StateKV := List (StateToken × PendingAuthRequest)

def kvLookup (t : StateToken) : StateKV → Option PendingAuthRequest
  | [] => none
  | (k, v) :: rest => if k = t then some v else kvLookup t rest

def kvInsert (t : StateToken) (v : PendingAuthRequest) (kv : StateKV) : StateKV :=
  (t, v) :: kv

def kvDelete (t : StateToken) : StateKV → StateKV
  | [] => []
  | (k, v) :: rest => if k = t then kvDelete t rest else (k, v) :: kvDelete t rest

theorem kvLookup_kvDelete (t : StateToken) (kv : StateKV) :
    kvLookup t (kvDelete t kv) = none := by
  induction kv with
  | nil => rfl
  | cons p rest ih =>
    obtain ⟨k, v⟩ := p
    by_cases hk : k = t
    · simp [kvDelete, hk, ih]
    · simp [kvDelete, hk, kvLookup, ih]

/-- Modelled from the spec: `create(pendingRequest) → stateToken`
(`createOAuthState` of `workers-oauth-utils`, section 4.4).  The fresh
high-entropy token is an explicit argument (the source draws it at random);
the entry is written to the store and the token returned. -/
def createOAuthState (req : PendingAuthRequest) (kv : StateKV) (fresh : StateToken) :
    StateToken × StateKV :=
  (fresh, kvInsert fresh req kv)

/-- Modelled from the spec: `consume(stateToken) → pendingRequest | fails with
UnknownOrExpiredState` (section 4.4): a lookup-then-delete, so a second call
with the same token always fails. -/
def consumeOAuthState (t : StateToken) (kv : StateKV) :
    Except OAuthErrorKind (PendingAuthRequest × StateKV) :=
  match kvLookup t kv with
  | none => .error .unknownOrExpiredState
  | some req => .ok (req, kvDelete t kv)

/-! ## CSRF Guard (spec section 4.2) -/

/-- Modelled from the spec: `generate() → {token, cookieHeader}` (section 4.2).
The random token is an explicit argument. -/
def generateCSRFProtection (fresh : String) : String × String :=
  (fresh, "__Host-CSRF_TOKEN=" ++ fresh ++ "; HttpOnly; Secure; Path=/; Max-Age=600")

/-- Modelled from the spec: `validate(submittedToken, requestCookies) → ok |
fails with CSRFMismatch` (`validateCSRFToken` of `workers-oauth-utils`,
section 4.2): requires the cookie to be present and the submitted token to
equal its value; absence of either side is a mismatch. -/
def validateCSRFToken (submitted cookieVal : Option String) :
    Except OAuthErrorKind Unit :=
  match submitted, cookieVal with
  | some s, some c => if s = c then .ok () else .error .csrfMismatch
  | _, _ => .error .csrfMismatch

/-! ## Session Binder (spec section 4.5) -/

def renderBytes (l : List Nat) : String :=
  String.intercalate "." (l.map (fun n => toString n))

/-- Modelled from the spec: `bind(stateToken) → {cookieHeader}`
(`bindStateToSession`, section 4.5): seals the token via the Cookie Cipher
into the `__Host-CONSENTED_STATE` binding cookie. -/
def renderSessionCookie (sealed : List Nat) : String :=
  "__Host-CONSENTED_STATE=" ++ renderBytes sealed ++ "; HttpOnly; Secure; Path=/; Max-Age=600"

def bindStateToSession (t : StateToken) (key : Nat) : String :=
  renderSessionCookie (sealCookie t key)

/-- Modelled from the spec: `unbind() → clearCookieHeader` (section 4.5):
a header that expires the binding cookie immediately. -/
def clearSessionCookieHeader : String :=
  "__Host-CONSENTED_STATE=; HttpOnly; Secure; Path=/; Max-Age=0"

/-- Modelled from the spec: `readBoundToken(requestCookies, key) → stateToken |
fails with NoBinding` (section 4.5): fails if the cookie is absent or the
Cookie Cipher rejects it. -/
def readBoundToken (cookie : Option (List Nat)) (key : Nat) :
    Except OAuthErrorKind StateToken :=
  match cookie with
  | none => .error .invalidSessionBinding
  | some sealed =>
    match openCookie sealed key with
    | .error _ => .error .invalidSessionBinding
    | .ok t => .ok t

/-! ## Callback Validator (spec section 4.6) -/

/-- Modelled from the spec: `validate(request, store)` (`validateOAuthState` of
`workers-oauth-utils`, section 4.6).  The token read from the binding cookie is
the key consumed in the store; the request's `state` query parameter
(`_queryState`) is available but never consulted — there is no independent
comparison step. -/
def validateOAuthState (_queryState : Option StateToken) (cookie : Option (List Nat))
    (key : Nat) (kv : StateKV) :
    Except OAuthErrorKind (PendingAuthRequest × StateKV × String) :=
  match readBoundToken cookie key with
  | .error e => .error e
  | .ok t =>
    match consumeOAuthState t kv with
    | .error e => .error e
    | .ok (req, kv2) => .ok (req, kv2, clearSessionCookieHeader)

/-! ## Approved-Client Ledger (spec section 4.3) -/

/-- Length-prefixed byte encoding of the client-identifier list carried by the
ledger cookie. -/
def encodeLedger (ids : List String) : List Nat :=
  ids.foldr (fun s acc => (s.length :: s.toList.map Char.toNat) ++ acc) []

def decodeLedgerAux : Nat → List Nat → Option (List String)
  | _, [] => some []
  | 0, _ :: _ => none
  | fuel + 1, n :: rest =>
    if n ≤ rest.length then
      match decodeLedgerAux fuel (rest.drop n) with
      | none => none
      | some tl => some (String.mk ((rest.take n).map Char.ofNat) :: tl)
    else none

def decodeLedger (l : List Nat) : Option (List String) :=
  decodeLedgerAux l.length l

/-- Modelled from the spec: reading the encrypted ledger cookie (section 4.3);
yields `none` when the cookie is missing, fails integrity checks, or does not
decode — the caller then falls open to the empty set. -/
def readLedger (cookie : Option (List Nat)) (key : Nat) : Option (List String) :=
  match cookie with
  | none => none
  | some sealed =>
    match openCookie sealed key with
    | .error _ => none
    | .ok pt => decodeLedger pt

/-- Modelled from the spec: `isApproved(request, clientId, key) → bool`
(`isClientApproved`, section 4.3): never treats a corrupt cookie as approved. -/
def isClientApproved (cookie : Option (List Nat)) (clientId : String) (key : Nat) : Bool :=
  ((readLedger cookie key).getD []).contains clientId

/-- Modelled from the spec: `addApprovedClient(request, clientId, key) →
cookieHeader` (section 4.3): reads the existing ledger (empty on
missing/corrupt cookie), inserts the client identifier, re-seals. -/
def addApprovedClient (cookie : Option (List Nat)) (clientId : String) (key : Nat) :
    List Nat :=
  let current := (readLedger cookie key).getD []
  let updated := if current.contains clientId then current else current ++ [clientId]
  sealCookie (encodeLedger updated) key

def renderLedgerCookie (sealed : List Nat) : String :=
  "APPROVED_CLIENTS=" ++ renderBytes sealed ++ "; HttpOnly; Secure; Path=/"

theorem readLedger_seal (l : List String) (key : Nat)
    (h : (encodeLedger l).all (fun b => b < 256) = true) :
    readLedger (some (sealCookie (encodeLedger l) key)) key = decodeLedger (encodeLedger l) := by
  simp [readLedger, openCookie_sealCookie _ _ h]

/-! ## HTTP layer types and the routes of `reflect-handler.ts` -/

structure HttpResponse where
  status : Nat
  setCookies : List String
  loc : Option String
  body : String
deriving DecidableEq

/-- Modelled from the spec: `OAuthError.toResponse()` renders exactly one
uniform failure page with a 400-class status, deliberately not revealing which
check failed (spec sections 4.6 and 6). -/
def oauthErrorResponse (_e : OAuthErrorKind) : HttpResponse :=
  ⟨400, [], none, "OAuth error"⟩

/-- Modelled from the spec: `getUpstreamAuthorizeUrl` of `utils.ts` (not among
the sources); a deterministic upstream redirect URL carrying the state token
(`redirectToReflect` in `reflect-handler.ts`). -/
def upstreamAuthorizeUrl (t : StateToken) : String :=
  "https://reflect.app/oauth?scope=read:graph,write:graph&response_type=code&state=" ++
    renderBytes t

/-- Result of `GET /authorize` (`reflect-handler.ts` lines 35-60): either the
400 "Invalid request" text or the approval dialog rendered with the CSRF token,
its `Set-Cookie` header and the encoded pending request. -/
inductive GetAuthorizeResult where
  | badRequest (resp : HttpResponse)
  | dialog (clientId : String) (csrfToken : String) (csrfSetCookie : String)
      (stateReq : PendingAuthRequest)
deriving DecidableEq

/-- Embedding of `app.get("/authorize")` (`reflect-handler.ts` lines 35-60).
`reqInfo` is `parseAuthRequest`'s result (`none` models a falsy `clientId`);
`ledgerCookie` is the approved-client cookie; `freshCsrf` the random CSRF
token.  The source computes `isClientApproved` and branches on it with an
EMPTY body ("Skip approval dialog but still create secure state and bind to
session"), so the approval status is computed and discarded. -/
def authorizeGet (reqInfo : Option PendingAuthRequest) (ledgerCookie : Option (List Nat))
    (key : Nat) (freshCsrf : String) : GetAuthorizeResult :=
  match reqInfo with
  | none => .badRequest ⟨400, [], none, "Invalid request"⟩
  | some info =>
    if info.clientId = "" then .badRequest ⟨400, [], none, "Invalid request"⟩
    else
      let _approved := isClientApproved ledgerCookie info.clientId key
      let csrf := generateCSRFProtection freshCsrf
      .dialog info.clientId csrf.1 csrf.2 info

/-- The form's `state` field after `JSON.parse(atob(...))`
(`app.post("/authorize")`): a parse failure, a parse without a usable
`oauthReqInfo`, or the decoded pending request. -/
inductive FormStateField where
  | malformed
  | noReqInfo
  | parsed (req : PendingAuthRequest)
deriving DecidableEq

/-- Result of `POST /authorize` (`reflect-handler.ts` lines 62-112): an error
response, or the 302 redirect to Reflect carrying the approved-client cookie,
the session-binding cookie, the fresh state token and the upstream URL. -/
inductive PostAuthorizeResult where
  | err (resp : HttpResponse)
  | redirect (approvedCookie : String) (sessionCookie : String)
      (stateToken : StateToken) (loc : String)
deriving DecidableEq

/-- Erases the approved-client cookie, the only output of `POST /authorize`
that depends on the ledger cookie. -/
def postSecurityView : PostAuthorizeResult → PostAuthorizeResult
  | .err r => .err r
  | .redirect _ sc st l => .redirect "" sc st l

/-- Embedding of `app.post("/authorize")` (`reflect-handler.ts` lines 62-112).
`unexpectedFailure` models a non-`OAuthError` exception thrown inside the
`try` block (for example by the KV store): the `catch` handler returns a 500
response echoing `error.message`.  `formCsrf`/`csrfCookie` are the submitted
and cookie-borne CSRF tokens, `formState` the form's `state` field (`none`
models a missing or non-string value), `freshState` the random state token. -/
def authorizePost (unexpectedFailure : Option String) (formCsrf csrfCookie : Option String)
    (formState : Option FormStateField) (ledgerCookie : Option (List Nat)) (key : Nat)
    (kv : StateKV) (freshState : StateToken) : PostAuthorizeResult × StateKV :=
  match unexpectedFailure with
  | some m => (.err ⟨500, [], none, "Internal server error: " ++ m⟩, kv)
  | none =>
    match validateCSRFToken formCsrf csrfCookie with
    | .error e => (.err (oauthErrorResponse e), kv)
    | .ok _ =>
      match formState with
      | none => (.err ⟨400, [], none, "Missing state in form data"⟩, kv)
      | some .malformed => (.err ⟨400, [], none, "Invalid state data"⟩, kv)
      | some .noReqInfo => (.err ⟨400, [], none, "Invalid request"⟩, kv)
      | some (.parsed req) =>
        if req.clientId = "" then (.err ⟨400, [], none, "Invalid request"⟩, kv)
        else
          let approvedCookie := renderLedgerCookie (addApprovedClient ledgerCookie req.clientId key)
          let created := createOAuthState req kv freshState
          let sessionCookie := bindStateToSession created.1 key
          (.redirect approvedCookie sessionCookie created.1 (upstreamAuthorizeUrl created.1),
            created.2)

/-- The upstream token-exchange outcome (`fetch("https://reflect.app/api/oauth/token")`):
a non-ok HTTP response with its status and body text, or a decoded JSON body
with optional `access_token` (`none` or `some ""` model a falsy token) and the
`access_token_id`. -/
inductive TokenExchange where
  | httpError (status : Nat) (body : String)
  | okResp (accessToken : Option String) (accessTokenId : String)
deriving DecidableEq

/-- Embedding of `app.get("/oauth/callback")` (`reflect-handler.ts` lines
160-249).  `queryState` is the `state` query parameter echoed by the upstream
(never read by the handler), `cookie` the `__Host-CONSENTED_STATE` cookie
value, `code` the `code` query parameter, `exchange` the token-exchange
outcome and `redirectTo` the `completeAuthorization` result.  Note that the
clear-cookie header obtained from validation is attached only on the final
success response. -/
def oauthCallback (queryState : Option StateToken) (cookie : Option (List Nat))
    (key : Nat) (kv : StateKV) (code : Option String) (exchange : TokenExchange)
    (redirectTo : String) : HttpResponse × StateKV :=
  match validateOAuthState queryState cookie key kv with
  | .error e => (oauthErrorResponse e, kv)
  | .ok (req, kv2, clearCookie) =>
    if req.clientId = "" then (⟨400, [], none, "Invalid OAuth request data"⟩, kv2)
    else
      match code with
      | none => (⟨400, [], none, "Missing code"⟩, kv2)
      | some _ =>
        match exchange with
        | .httpError st b =>
          (⟨500, [], none, "Failed to fetch access token: " ++ toString st ++ " " ++ b⟩, kv2)
        | .okResp atok _atokId =>
          if atok.getD "" = "" then (⟨400, [], none, "Missing access token"⟩, kv2)
          else
            (⟨302, if clearCookie = "" then [] else [clearCookie], some redirectTo, ""⟩, kv2)

/-- A concrete pending request used by closed counterexample and witness
statements. -/
def demoReq : PendingAuthRequest :=
  ⟨"demo", "https://client.example/cb", "read:graph", ""⟩

/-! ## `getValidDate` and the MCP tools of `index.ts` -/

/-- UTC date components of a JavaScript `Date` (as exposed by
`new Date().toISOString()`). -/
structure JsDate where
  year : Nat
  month : Nat
  day : Nat
deriving DecidableEq

def myDigitChar (n : Nat) : Char := Char.ofNat (48 + n % 10)

/-- Zero-padded four-digit rendering, as `toISOString` renders the year. -/
def pad4 (n : Nat) : List Char :=
  [myDigitChar (n / 1000), myDigitChar (n / 100), myDigitChar (n / 10), myDigitChar n]

/-- Zero-padded two-digit rendering, as `toISOString` renders month and day. -/
def pad2 (n : Nat) : List Char :=
  [myDigitChar (n / 10), myDigitChar n]

/-- `now.toISOString().split('T')[0]` (`index.ts` `getValidDate` fallback),
for years up to 9999. -/
def formatISODate (t : JsDate) : String :=
  String.mk (pad4 t.year ++ ('-' :: (pad2 t.month ++ ('-' :: pad2 t.day))))

def matchesDateFormatL : List Char → Bool
  | [a, b, c, d, e, f, g, h, i, j] =>
    a.isDigit && b.isDigit && c.isDigit && d.isDigit && (e == '-') &&
      f.isDigit && g.isDigit && (h == '-') && i.isDigit && j.isDigit
  | _ => false

/-- The test `/^\d\x7b4\x7d-\d\x7b2\x7d-\d\x7b2\x7d$/.test(s)` of `getValidDate`. -/
def matchesDateFormat (s : String) : Bool := matchesDateFormatL s.data

def charVal (c : Char) : Nat := c.toNat - 48

def isLeapYear (y : Nat) : Bool :=
  (y % 4 == 0 && y % 100 != 0) || y % 400 == 0

def daysInMonth (y m : Nat) : Nat :=
  if m = 2 then (if isLeapYear y then 29 else 28)
  else if m = 4 ∨ m = 6 ∨ m = 9 ∨ m = 11 then 30 else 31

def jsISODateValidL : List Char → Bool
  | [a, b, c, d, _, f, g, _, i, j] =>
    let y := 1000 * charVal a + 100 * charVal b + 10 * charVal c + charVal d
    let m := 10 * charVal f + charVal g
    let dd := 10 * charVal i + charVal j
    decide (1 ≤ m) && decide (m ≤ 12) && decide (1 ≤ dd) && decide (dd ≤ daysInMonth y m)
  | _ => false

/-- `!isNaN(new Date(s).getTime())` for a string already matching the
`YYYY-MM-DD` pattern: JavaScript engines reject ISO date strings whose month
is outside 1-12 or whose day is outside the month's calendar length
(including leap-year handling). -/
def jsISODateValid (s : String) : Bool := jsISODateValidL s.data

/-- Embedding of `getValidDate` (`index.ts`): returns the input when it is a
well-formed, calendar-valid `YYYY-MM-DD` string, and today's UTC date
otherwise.  `some ""` falls through the JavaScript truthiness check. -/
def getValidDate (dateInput : Option String) (today : JsDate) : String :=
  match dateInput with
  | none => formatISODate today
  | some s =>
    if s = "" then formatISODate today
    else if matchesDateFormat s then
      if jsISODateValid s then s else formatISODate today
    else formatISODate today

/-- An outbound Reflect API request recorded by a tool handler. -/
structure SentRequest where
  url : String
  method : String
  bodyDate : Option String
  bodyText : String
deriving DecidableEq

/-- Outcome of the tool's `fetch`: a decoded JSON body, or a thrown error
(non-ok HTTP status or network failure) whose string lands in the catch
handler. -/
inductive FetchOutcome where
  | success (json : String)
  | failure (msg : String)
deriving DecidableEq

/-- The result text and the outbound requests performed by a tool call. -/
structure ToolResult where
  text : String
  requests : List SentRequest
deriving DecidableEq

/-- `JSON.stringify({error: "Not authenticated. Please complete OAuth flow first."})`. -/
def authErrorJson : String :=
  "\x7b\"error\":\"Not authenticated. Please complete OAuth flow first.\"\x7d"

/-- `JSON.stringify({error: String(e)})` in the tools' catch handlers. -/
def jsonError (m : String) : String :=
  "\x7b\"error\":\"" ++ m ++ "\"\x7d"

/-- Embedding of the `get_reflect_graphs` tool (`index.ts`): `tok` is
`this.props?.accessToken` (`none` for missing props, `some ""` for a falsy
token). -/
def getReflectGraphs (tok : Option String) (fr : FetchOutcome) : ToolResult :=
  if tok.getD "" = "" then ⟨authErrorJson, []⟩
  else
    let req : SentRequest := ⟨"https://reflect.app/api/graphs", "GET", none, ""⟩
    match fr with
    | .success j => ⟨j, [req]⟩
    | .failure m => ⟨jsonError m, [req]⟩

/-- Embedding of the `append_to_reflect_daily_notes` tool as registered in
`src/index.ts` (content only, no date parameter). -/
def appendDailyNotes (tok : Option String) (content gid : String) (fr : FetchOutcome) :
    ToolResult :=
  if tok.getD "" = "" then ⟨authErrorJson, []⟩
  else
    let req : SentRequest :=
      ⟨"https://reflect.app/api/graphs/" ++ gid ++ "/daily-notes", "PUT", none, content⟩
    match fr with
    | .success j => ⟨j, [req]⟩
    | .failure m => ⟨jsonError m, [req]⟩

/-- Embedding of the dated `append_to_reflect_daily_notes` variant (the
`index.ts` version with the optional `date` parameter): the request body's
`date` field is `getValidDate(date)`. -/
def appendDailyNotesDated (tok : Option String) (content gid : String)
    (date : Option String) (today : JsDate) (fr : FetchOutcome) : ToolResult :=
  if tok.getD "" = "" then ⟨authErrorJson, []⟩
  else
    let validDate := getValidDate date today
    let req : SentRequest :=
      ⟨"https://reflect.app/api/graphs/" ++ gid ++ "/daily-notes", "PUT", some validDate, content⟩
    match fr with
    | .success j => ⟨j, [req]⟩
    | .failure m => ⟨jsonError m, [req]⟩

/-! ## Claim theorems -/

/-- C1: the claim that every `/oauth/callback` response includes the
`Set-Cookie` header clearing the session-binding cookie fails on the code:
with a valid binding cookie and a live state entry but no `code` query
parameter, the handler returns the 400 "Missing code" response with no
`Set-Cookie` header at all, even though the (nonempty) clear-cookie header
had been computed; the same holds on the other failure paths, while only the
final 302 success response attaches it. -/
theorem callback_missing_code_has_no_clear_cookie :
    (oauthCallback none (some (sealCookie [1] 5)) 5 [([1], demoReq)] none
        (.okResp none "") "r").1 = ⟨400, [], none, "Missing code"⟩ ∧
      clearSessionCookieHeader ≠ "" :=
  ⟨rfl, by decide⟩

/-- C2 counterexample: with the store holding a live entry for token `[1]` and
the browser's session-binding cookie sealing `[1]`, a callback whose query
carries the different state token `[2]` still validates successfully, so the
claim that a mismatched cookie/query pair never yields a successful
validation is false. -/
theorem mismatched_state_validation_succeeds_cex :
    ([2] : StateToken) ≠ [1] ∧
      validateOAuthState (some [2]) (some (sealCookie [1] 0)) 0 [([1], demoReq)] =
        .ok (demoReq, [], clearSessionCookieHeader) :=
  ⟨by decide, rfl⟩

/-- C2 (amended): the token read from the session-binding cookie is the key
used for the store lookup and the callback query's state token is never
consulted; consequently a callback whose cookie binds token `B` while the
query carries a different token `A` fails with an OAuthError exactly when `B`
is not a live key of the store (in particular when only `A` was created), and
otherwise succeeds on `B`'s own entry. -/
theorem cookie_token_is_lookup_key (qA B : StateToken) (key : Nat) (kv : StateKV)
    (hB : B.all (fun b => b < 256) = true) :
    (∀ q1 q2 c, validateOAuthState q1 c key kv = validateOAuthState q2 c key kv) ∧
    (kvLookup B kv = none →
      validateOAuthState (some qA) (some (sealCookie B key)) key kv =
        .error .unknownOrExpiredState) ∧
    (∀ req, kvLookup B kv = some req →
      validateOAuthState (some qA) (some (sealCookie B key)) key kv =
        .ok (req, kvDelete B kv, clearSessionCookieHeader)) := by
  refine ⟨fun q1 q2 c => rfl, ?_, ?_⟩
  · intro hnone
    simp [validateOAuthState, readBoundToken, openCookie_sealCookie _ _ hB,
      consumeOAuthState, hnone]
  · intro req hsome
    simp [validateOAuthState, readBoundToken, openCookie_sealCookie _ _ hB,
      consumeOAuthState, hsome]

theorem cookie_token_is_lookup_key_witness :
    validateOAuthState (some [2]) (some (sealCookie [3] 0)) 0 [([2], demoReq)] =
      .error .unknownOrExpiredState :=
  (cookie_token_is_lookup_key [2] [3] 0 [([2], demoReq)] (by decide)).2.1 (by decide)

/-- C3: `create` followed immediately by `consume` with the returned state
token yields the original pending request unchanged, and a second `consume`
with the same token on the resulting store fails with UnknownOrExpiredState. -/
theorem create_then_consume (req : PendingAuthRequest) (kv : StateKV) (fresh : StateToken) :
    (createOAuthState req kv fresh).1 = fresh ∧
    consumeOAuthState fresh (createOAuthState req kv fresh).2 =
      .ok (req, kvDelete fresh (kvInsert fresh req kv)) ∧
    consumeOAuthState fresh (kvDelete fresh (kvInsert fresh req kv)) =
      .error .unknownOrExpiredState := by
  refine ⟨rfl, ?_, ?_⟩
  · simp [createOAuthState, consumeOAuthState, kvInsert, kvLookup]
  · simp [consumeOAuthState, kvLookup_kvDelete]

/-- C5: CSRF validation fails with CSRFMismatch when the cookie is absent
(whatever the submitted token), fails when the submitted token is absent or
differs from the cookie value in any way, and succeeds exactly when both
sides are present and equal. -/
theorem csrf_exact_match (submitted cookieVal : Option String) :
    (cookieVal = none → validateCSRFToken submitted cookieVal = .error .csrfMismatch) ∧
    (submitted = none → validateCSRFToken submitted cookieVal = .error .csrfMismatch) ∧
    (∀ s c, submitted = some s → cookieVal = some c → s ≠ c →
      validateCSRFToken submitted cookieVal = .error .csrfMismatch) ∧
    (validateCSRFToken submitted cookieVal = .ok () ↔
      ∃ t, submitted = some t ∧ cookieVal = some t) := by
  cases submitted with
  | none => cases cookieVal <;> simp [validateCSRFToken]
  | some s =>
    cases cookieVal with
    | none => simp [validateCSRFToken]
    | some c =>
      by_cases hsc : s = c
      · subst hsc
        simp [validateCSRFToken]
      · refine ⟨by simp, by simp, ?_, ?_⟩
        · intro a b ha hb _
          simp [validateCSRFToken, hsc]
        · simp [validateCSRFToken, hsc]
          intro hcs
          exact hsc hcs.symm

theorem csrf_exact_match_witness :
    validateCSRFToken (some "t0") none = .error .csrfMismatch :=
  (csrf_exact_match (some "t0") none).1 rfl

/-- C6: flipping any single byte of a sealed cookie value makes `open` fail
with IntegrityError rather than decode to a wrong plaintext; and every
failure of `open` — truncation, signature mismatch or wrong key — surfaces as
the one identical IntegrityError. -/
theorem sealed_byte_flip_integrity :
    (∀ (pt : List Nat) (key i b : Nat), pt.all (fun x => x < 256) = true →
      i < (sealCookie pt key).length → b < 256 → b ≠ (sealCookie pt key).getD i 0 →
      openCookie ((sealCookie pt key).set i b) key = .error .integrityError) ∧
    (∀ (s : List Nat) (key : Nat),
      (∃ pt, openCookie s key = .ok pt) ∨ openCookie s key = .error .integrityError) := by
  constructor
  · exact fun pt key i b h1 h2 h3 h4 => openCookie_flip pt key i b h1 h2 h3 h4
  · intro s key
    unfold openCookie
    by_cases h1 : s.length % 2 = 0
    · rw [if_pos h1]
      by_cases h2 : s.drop (s.length / 2) = (s.take (s.length / 2)).map (tagByte key)
      · rw [if_pos h2]
        exact Or.inl ⟨_, rfl⟩
      · rw [if_neg h2]
        exact Or.inr rfl
    · rw [if_neg h1]
      exact Or.inr rfl

theorem sealed_byte_flip_integrity_witness :
    openCookie ((sealCookie [1, 2] 5).set 0 9) 5 = .error .integrityError :=
  sealed_byte_flip_integrity.1 [1, 2] 5 0 9 (by decide) (by decide) (by decide) (by decide)

/-- C7: adding client "abc" and then "xyz" to the approved-client ledger
preserves both — a subsequent `isApproved` check returns true for each — and
for any corrupted or undecodable ledger cookie `isApproved` returns false
(it is a total Boolean function: it fails open, it does not throw). -/
theorem ledger_preserves_and_fails_closed (key : Nat) :
    (isClientApproved
        (some (addApprovedClient (some (addApprovedClient none "abc" key)) "xyz" key))
        "abc" key = true ∧
      isClientApproved
        (some (addApprovedClient (some (addApprovedClient none "abc" key)) "xyz" key))
        "xyz" key = true) ∧
    (∀ (corrupt : List Nat) (cid : String),
      (∀ pt, openCookie corrupt key = .ok pt → decodeLedger pt = none) →
      isClientApproved (some corrupt) cid key = false) := by
  have e1 : addApprovedClient none "abc" key = sealCookie (encodeLedger ["abc"]) key := rfl
  have r1 : readLedger (some (sealCookie (encodeLedger ["abc"]) key)) key = some ["abc"] := by
    rw [readLedger_seal _ _ (by decide)]
    decide
  have e2 : addApprovedClient (some (sealCookie (encodeLedger ["abc"]) key)) "xyz" key =
      sealCookie (encodeLedger ["abc", "xyz"]) key := by
    unfold addApprovedClient
    rw [r1]
    rfl
  have r2 : readLedger (some (sealCookie (encodeLedger ["abc", "xyz"]) key)) key =
      some ["abc", "xyz"] := by
    rw [readLedger_seal _ _ (by decide)]
    decide
  refine ⟨⟨?_, ?_⟩, ?_⟩
  · rw [e1, e2]
    unfold isClientApproved
    rw [r2]
    decide
  · rw [e1, e2]
    unfold isClientApproved
    rw [r2]
    decide
  · intro corrupt cid hcor
    unfold isClientApproved readLedger
    cases hop : openCookie corrupt key with
    | error e => simp [hop]
    | ok pt => simp [hop, hcor pt hop]

theorem ledger_preserves_and_fails_closed_witness :
    isClientApproved (some [0]) "abc" 3 = false :=
  (ledger_preserves_and_fails_closed 3).2 [0] "abc"
    (fun pt h => absurd h (by simp [openCookie]))

/-- C4: the approved-client check does not alter security behavior: two
`GET /authorize` runs differing only in approval status produce identical
responses (same CSRF issuance and dialog), two `POST /authorize` runs
differing only in the ledger cookie agree on everything except the re-sealed
ledger cookie — in particular on the session-binding cookie, the state token
and the store update — and on the consent path the state entry and session
binding are created for every ledger cookie. -/
theorem approval_status_no_security_effect (reqInfo : Option PendingAuthRequest)
    (l1 l2 : Option (List Nat)) (key : Nat) (freshCsrf : String) (cid : String)
    (h1 : isClientApproved l1 cid key = true) (h2 : isClientApproved l2 cid key = false) :
    (authorizeGet reqInfo l1 key freshCsrf = authorizeGet reqInfo l2 key freshCsrf) ∧
    (∀ uf fc cc fs kv fresh,
      postSecurityView (authorizePost uf fc cc fs l1 key kv fresh).1 =
        postSecurityView (authorizePost uf fc cc fs l2 key kv fresh).1 ∧
      (authorizePost uf fc cc fs l1 key kv fresh).2 =
        (authorizePost uf fc cc fs l2 key kv fresh).2) ∧
    (∀ (l : Option (List Nat)) (t : String) (req : PendingAuthRequest) (kv : StateKV)
        (fresh : StateToken), req.clientId ≠ "" →
      authorizePost none (some t) (some t) (some (.parsed req)) l key kv fresh =
        (.redirect (renderLedgerCookie (addApprovedClient l req.clientId key))
          (bindStateToSession fresh key) fresh (upstreamAuthorizeUrl fresh),
          kvInsert fresh req kv)) := by
  refine ⟨?_, ?_, ?_⟩
  · cases reqInfo with
    | none => rfl
    | some info =>
      by_cases hc : info.clientId = "" <;> simp [authorizeGet, hc]
  · intro uf fc cc fs kv fresh
    cases uf with
    | some m => exact ⟨rfl, rfl⟩
    | none =>
      cases hv : validateCSRFToken fc cc with
      | error e => simp [authorizePost, hv, postSecurityView]
      | ok u =>
        cases fs with
        | none => simp [authorizePost, hv, postSecurityView]
        | some f =>
          cases f with
          | malformed => simp [authorizePost, hv, postSecurityView]
          | noReqInfo => simp [authorizePost, hv, postSecurityView]
          | parsed req =>
            by_cases hc : req.clientId = "" <;>
              simp [authorizePost, hv, hc, postSecurityView, createOAuthState]
  · intro l t req kv fresh hreq
    simp [authorizePost, validateCSRFToken, hreq, createOAuthState]

theorem approval_status_no_security_effect_witness :
    authorizeGet (some demoReq) (some (addApprovedClient none "demo" 0)) 0 "tok" =
      authorizeGet (some demoReq) none 0 "tok" :=
  (approval_status_no_security_effect (some demoReq) (some (addApprovedClient none "demo" 0))
    none 0 "tok" "demo" (by decide) (by decide)).1

/-- C8 counterexample: a failing upstream token exchange (HTTP 503, body
"upstream-secret-detail") is surfaced with the upstream status and response
body echoed verbatim in the 500 response body, so the internal-error response
is not opaque as claimed. -/
theorem token_exchange_echo_cex :
    (oauthCallback none (some (sealCookie [1] 5)) 5 [([1], demoReq)] (some "c")
        (.httpError 503 "upstream-secret-detail") "r").1 =
      ⟨500, [], none, "Failed to fetch access token: 503 upstream-secret-detail"⟩ :=
  rfl

/-- C8 (amended): unexpected errors are surfaced with a 500 status, but their
bodies echo internal detail — the `POST /authorize` catch handler echoes the
exception message and the callback's token-exchange failure echoes the
upstream status and response body — while recognized caller-side faults
(CSRF mismatch or invalid state via the uniform OAuthError page, missing form
state, missing code) receive 400-class responses. -/
theorem error_status_classes :
    (∀ (B : StateToken) (key : Nat) (kv : StateKV) (qs : Option StateToken)
        (req : PendingAuthRequest) (c rdir : String) (st : Nat) (b : String),
      B.all (fun x => x < 256) = true → kvLookup B kv = some req → req.clientId ≠ "" →
      (oauthCallback qs (some (sealCookie B key)) key kv (some c)
          (.httpError st b) rdir).1 =
        ⟨500, [], none, "Failed to fetch access token: " ++ toString st ++ " " ++ b⟩) ∧
    (∀ (m : String) (fc cc : Option String) (fs : Option FormStateField)
        (l : Option (List Nat)) (key : Nat) (kv : StateKV) (fresh : StateToken),
      (authorizePost (some m) fc cc fs l key kv fresh).1 =
        .err ⟨500, [], none, "Internal server error: " ++ m⟩) ∧
    (∀ e, (oauthErrorResponse e).status = 400) ∧
    (∀ (fc : String) (l : Option (List Nat)) (key : Nat) (kv : StateKV) (fresh : StateToken),
      (authorizePost none (some fc) (some fc) none l key kv fresh).1 =
        .err ⟨400, [], none, "Missing state in form data"⟩) ∧
    (∀ (B : StateToken) (key : Nat) (kv : StateKV) (qs : Option StateToken)
        (req : PendingAuthRequest) (rdir : String),
      B.all (fun x => x < 256) = true → kvLookup B kv = some req → req.clientId ≠ "" →
      (oauthCallback qs (some (sealCookie B key)) key kv none
          (.okResp none "") rdir).1.status = 400) := by
  refine ⟨?_, fun m fc cc fs l key kv fresh => rfl, fun e => rfl, ?_, ?_⟩
  · intro B key kv qs req c rdir st b hB hsome hreq
    simp [oauthCallback, validateOAuthState, readBoundToken,
      openCookie_sealCookie _ _ hB, consumeOAuthState, hsome, hreq]
  · intro fc l key kv fresh
    simp [authorizePost, validateCSRFToken]
  · intro B key kv qs req rdir hB hsome hreq
    simp [oauthCallback, validateOAuthState, readBoundToken,
      openCookie_sealCookie _ _ hB, consumeOAuthState, hsome, hreq]

theorem error_status_classes_witness :
    (oauthCallback none (some (sealCookie [1] 0)) 0 [([1], demoReq)] (some "c")
        (.httpError 500 "b") "r").1 =
      ⟨500, [], none, "Failed to fetch access token: " ++ toString 500 ++ " " ++ "b"⟩ :=
  error_status_classes.1 [1] 0 [([1], demoReq)] none demoReq "c" "r" 500 "b"
    (by decide) (by decide) (by decide)

theorem digitChar_isDigit_of_lt (k : Nat) (h : k < 10) :
    (Char.ofNat (48 + k)).isDigit = true := by
  interval_cases k <;> decide

theorem myDigitChar_isDigit (n : Nat) : (myDigitChar n).isDigit = true :=
  digitChar_isDigit_of_lt (n % 10) (Nat.mod_lt _ (by norm_num))

theorem matchesDateFormat_formatISODate (t : JsDate) :
    matchesDateFormat (formatISODate t) = true := by
  show matchesDateFormatL (pad4 t.year ++ ('-' :: (pad2 t.month ++ ('-' :: pad2 t.day)))) = true
  simp [pad4, pad2, matchesDateFormatL, myDigitChar_isDigit]

/-- C9: `getValidDate` is a total function over all optional string inputs: it
returns the input exactly when the input matches `YYYY-MM-DD` and parses to a
valid calendar date; otherwise (absent, empty, malformed or unparseable
input) it returns today's date; the result always has the shape `YYYY-MM-DD`,
and consequently so does the `date` field of every request sent by the dated
`append_to_reflect_daily_notes` tool. -/
theorem getValidDate_selection_and_shape (input : Option String) (today : JsDate)
    (hy : today.year ≤ 9999) :
    (∀ s, input = some s → matchesDateFormat s = true → jsISODateValid s = true →
      getValidDate input today = s) ∧
    (∀ s, input = some s → (matchesDateFormat s = false ∨ jsISODateValid s = false) →
      getValidDate input today = formatISODate today) ∧
    (input = none → getValidDate input today = formatISODate today) ∧
    matchesDateFormat (getValidDate input today) = true ∧
    (∀ (tok content gid : String) (fr : FetchOutcome), tok ≠ "" →
      ∀ r ∈ (appendDailyNotesDated (some tok) content gid input today fr).requests,
        matchesDateFormat (r.bodyDate.getD "") = true) := by
  have hshape : matchesDateFormat (getValidDate input today) = true := by
    cases input with
    | none => exact matchesDateFormat_formatISODate today
    | some s =>
      by_cases he : s = ""
      · simp [getValidDate, he, matchesDateFormat_formatISODate]
      · by_cases hm : matchesDateFormat s = true
        · by_cases hv : jsISODateValid s = true
          · simpa [getValidDate, he, hm, hv] using hm
          · simp [getValidDate, he, hm, hv, matchesDateFormat_formatISODate]
        · simp [getValidDate, he, hm, matchesDateFormat_formatISODate]
  refine ⟨?_, ?_, ?_, hshape, ?_⟩
  · intro s hs h1 h2
    subst hs
    have hne : s ≠ "" := by
      intro he
      subst he
      exact absurd h1 (by decide)
    simp [getValidDate, hne, h1, h2]
  · intro s hs hfail
    subst hs
    by_cases he : s = ""
    · simp [getValidDate, he]
    · rcases hfail with hm | hv
      · simp [getValidDate, he, hm]
      · by_cases hm2 : matchesDateFormat s = true
        · simp [getValidDate, he, hm2, hv]
        · simp [getValidDate, he, hm2]
  · intro h
    subst h
    rfl
  · intro tok content gid fr htok r hr
    cases fr with
    | success j =>
      simp [appendDailyNotesDated, htok] at hr
      subst hr
      simpa using hshape
    | failure m =>
      simp [appendDailyNotesDated, htok] at hr
      subst hr
      simpa using hshape

theorem getValidDate_selection_and_shape_witness :
    getValidDate (some "2026-02-14") ⟨2026, 10, 11⟩ = "2026-02-14" :=
  (getValidDate_selection_and_shape (some "2026-02-14") ⟨2026, 10, 11⟩ (by decide)).1
    "2026-02-14" rfl (by decide) (by decide)

/-- C10: when no access token is present in the agent props (missing props or
a falsy token), both MCP tools return the JSON "Not authenticated" error text
and perform no outbound request; both handlers are total functions of their
inputs, so neither throws to its caller. -/
theorem tools_unauthenticated (tok : Option String) (content gid : String)
    (fr1 fr2 : FetchOutcome) (h : tok.getD "" = "") :
    getReflectGraphs tok fr1 = ⟨authErrorJson, []⟩ ∧
      appendDailyNotes tok content gid fr2 = ⟨authErrorJson, []⟩ := by
  constructor
  · simp [getReflectGraphs, h]
  · simp [appendDailyNotes, h]

theorem tools_unauthenticated_witness :
    getReflectGraphs none (.success "d") = ⟨authErrorJson, []⟩ ∧
      appendDailyNotes none "c" "g" (.success "d") = ⟨authErrorJson, []⟩ :=
  tools_unauthenticated none "c" "g" (.success "d") (.success "d") rfl
